import Mathlib

/-!
Shallow embedding of the ATS Resume Score Analyzer (src/app.py).

The program extracts text from a PDF, builds a prompt from the resume and the
job description, calls the Gemini API with a bounded retry loop, validates the
raw JSON response against a pydantic schema, and renders the result.

Modelling conventions:
* Machine-level JSON values are modelled by the inductive `Json`; the raw text
  returned by the API is modelled by `Raw`, where `Raw.malformed` stands for
  text that is not valid JSON at all and `Raw.json` for text whose parse is the
  given JSON value.  Parsing text into JSON is performed by the third-party
  pydantic library; what the repository declares is the schema (the `Feedback`
  and `ATSResult` pydantic models), which `model_validate_json` checks.
* The external LLM API (client.models.generate_content) is modelled as a
  function from the 0-based attempt index to an `ApiOutcome`: it either raises
  an APIError (transient), returns raw text, or raises some other exception.
* Side effects are made explicit: the analysis loop returns the list of sleep
  durations performed (time.sleep arguments, in order), the number of API
  calls made, and the final outcome.  Python returning None after an st.error
  is modelled as a tagged `AnalyzeError` value, following the error kinds of
  the specification.
* PDF pages are modelled by `List (Option String)`: page.extract_text() per
  page, `none` when extraction yields no text.
* The environment variable GEMINI_API_KEY is modelled by an `Option String`.
-/

/-- Pydantic model Feedback (src/app.py lines 14-18): three mandatory
free-text feedback sections. -/
structure Feedback where
  keywordMatch : String
  contentImpact : String
  formattingAndStructure : String
  deriving DecidableEq

/-- Pydantic model ATSResult (src/app.py lines 20-24): the structured ATS
analysis report.  The score field is declared as a plain int; the 0-100 range
appears only in the field description, not as a validation constraint. -/
structure ATSResult where
  score : Int
  summary : String
  feedback : Feedback
  deriving DecidableEq

/-- JSON values (integers suffice for the numbers appearing in the schema). -/
inductive Json where
  | null : Json
  | bool (b : Bool) : Json
  | num (n : Int) : Json
  | str (s : String) : Json
  | arr (elems : List Json) : Json
  | obj (fields : List (String × Json)) : Json

/-- The raw textual response of the API: either text that is not valid JSON,
or text that parses to the given JSON value. -/
inductive Raw where
  | malformed (text : String) : Raw
  | json (j : Json) : Raw

/-- Validation of the feedback sub-object against the Feedback pydantic model:
the three string fields are required; extra fields are ignored. -/
def validateFeedback : Json → Except String Feedback
  | Json.obj fields =>
    match fields.lookup "keywordMatch", fields.lookup "contentImpact",
        fields.lookup "formattingAndStructure" with
    | some (Json.str a), some (Json.str b), some (Json.str c) =>
      Except.ok ⟨a, b, c⟩
    | _, _, _ => Except.error "feedback fields missing or mistyped"
  | _ => Except.error "feedback must be an object"

/-- ATSResult.model_validate_json (src/app.py line 116): parse the raw text as
JSON and validate it against the ATSResult pydantic model.  Malformed JSON and
missing or mistyped fields are validation errors (raised in Python as
json.JSONDecodeError or pydantic ValidationError, a ValueError subclass).
Note that the score field is only required to be an integer: no range check is
declared on the pydantic model. -/
def model_validate_json : Raw → Except String ATSResult
  | Raw.malformed _ => Except.error "invalid JSON"
  | Raw.json (Json.obj fields) =>
    match fields.lookup "score", fields.lookup "summary",
        fields.lookup "feedback" with
    | some (Json.num s), some (Json.str sm), some fb =>
      match validateFeedback fb with
      | Except.ok f => Except.ok ⟨s, sm, f⟩
      | Except.error e => Except.error e
    | _, _, _ => Except.error "top-level fields missing or mistyped"
  | Raw.json _ => Except.error "top-level value must be an object"

/-- A JSON document exactly conforming to the schema: an object with integer
score, string summary, and a feedback object with the three string fields. -/
def conformingJson (s : Int) (sm a b c : String) : Json :=
  Json.obj [("score", Json.num s), ("summary", Json.str sm),
    ("feedback", Json.obj [("keywordMatch", Json.str a),
      ("contentImpact", Json.str b), ("formattingAndStructure", Json.str c)])]

/-- Outcome of one call to the external LLM API
(client.models.generate_content): an APIError exception (transient failure),
a successful response carrying raw text, or any other exception. -/
inductive ApiOutcome where
  | apiError (detail : String) : ApiOutcome
  | success (raw : Raw) : ApiOutcome
  | otherError (detail : String) : ApiOutcome

/-- Classified failures of the analysis, following the except-clauses of
analyze_resume_ats (src/app.py lines 119-131): APIError with no attempts left,
JSON/validation failure, and any other exception. -/
inductive AnalyzeError where
  | apiExhausted (detail : String) : AnalyzeError
  | schemaViolation (detail : String) : AnalyzeError
  | unexpected (detail : String) : AnalyzeError
  deriving DecidableEq

/-- The fixed system instruction (src/app.py lines 74-82). -/
def system_prompt : String :=
  "You are a world-class Applicant Tracking System (ATS) analyst with 20 years of " ++
  "experience. Your task is to evaluate a candidate's resume against a specific job " ++
  "description. Analyze the documents across three core areas: Keyword Match, " ++
  "Content Impact (quantifiable achievements, action verbs), and Formatting/Structure " ++
  "(ATS parsability, standard headings). Generate a compatibility score from 0 to 100 " ++
  "and provide detailed, actionable feedback. Ensure all feedback is professional and " ++
  "constructive. The output MUST adhere strictly to the provided JSON schema."

/-- The user message f-string (src/app.py lines 84-93), embedding the resume
text and the job description text under their labelled delimiters. -/
def user_query (resume_text jd_text : String) : String :=
  "\n    Analyze the following RESUME against the JOB DESCRIPTION.\n\n    ---\n    RESUME TEXT:\n    "
    ++ resume_text
    ++ "\n    ---\n    JOB DESCRIPTION:\n    "
    ++ jd_text
    ++ "\n    "

/-- The retry loop of analyze_resume_ats (src/app.py lines 106-132), iterating
over the attempt indices of range(max_retries).  Returns the list of sleep
durations performed, the number of API calls made, and the outcome.  On
APIError with attempts remaining it sleeps 2 ^ attempt and retries; on a later
APIError with no attempts remaining it reports exhaustion carrying that error;
on a successful response it validates and returns, reporting a schema
violation on parse failure; any other exception is reported as unexpected.
The empty-list case models the return None after the loop (line 132),
reachable only if the iteration space is exhausted without a terminal
return. -/
def analyzeLoop (api : Nat → ApiOutcome) (max_retries : Nat) :
    List Nat → List Nat × Nat × Except AnalyzeError ATSResult
  | [] => ([], 0, Except.error (AnalyzeError.apiExhausted ""))
  | attempt :: rest =>
    match api attempt with
    | ApiOutcome.success raw =>
      match model_validate_json raw with
      | Except.ok report => ([], 1, Except.ok report)
      | Except.error e => ([], 1, Except.error (AnalyzeError.schemaViolation e))
    | ApiOutcome.apiError e =>
      if attempt < max_retries - 1 then
        let r := analyzeLoop api max_retries rest
        (2 ^ attempt :: r.1, r.2.1 + 1, r.2.2)
      else
        ([], 1, Except.error (AnalyzeError.apiExhausted e))
    | ApiOutcome.otherError e => ([], 1, Except.error (AnalyzeError.unexpected e))

/-- analyze_resume_ats (src/app.py lines 67-132): build the prompt from the
resume and job description, then run the bounded retry loop (max_retries = 3)
against the API.  The prompt (system_prompt, user_query resume_text jd_text)
and the schema are submitted on every attempt; the API collaborator is
abstracted as its attempt-indexed outcomes. -/
def analyze_resume_ats (api : Nat → ApiOutcome) (resume_text jd_text : String) :
    List Nat × Nat × Except AnalyzeError ATSResult :=
  analyzeLoop api 3 (List.range 3)

/-- Python truthiness of text.strip() (src/app.py line 41): not text.strip()
holds exactly when every character of the text is whitespace. -/
def isBlank (s : String) : Bool :=
  s.data.all Char.isWhitespace

/-- One iteration of the page loop of extract_text_from_pdf (src/app.py lines
33-40): a page whose extracted text is truthy (present and non-empty) is
appended to the accumulator followed by a newline; otherwise only a warning is
shown and the accumulator is unchanged. -/
def accumulatePage (acc : String) (page_text : Option String) : String :=
  match page_text with
  | some t => if t ≠ "" then acc ++ (t ++ "\n") else acc
  | none => acc

/-- extract_text_from_pdf (src/app.py lines 28-47): concatenate the extracted
text of each page, then fail (return None) exactly when the accumulated text
is empty after stripping whitespace. -/
def extract_text_from_pdf (pages : List (Option String)) : Option String :=
  let text := pages.foldl accumulatePage ""
  if isBlank text then none else some text

/-- Failures of get_gemini_client (src/app.py lines 51-65): the API key is
absent, or client construction itself raised. -/
inductive ClientError where
  | missingCredential : ClientError
  | initFailure (detail : String) : ClientError
  deriving DecidableEq

/-- get_gemini_client (src/app.py lines 51-65): read GEMINI_API_KEY from the
environment; if it is unset or empty report the missing key and return no
client; otherwise construct the client (an external step that may itself
fail, modelled by the construct argument). -/
def get_gemini_client (env_key : Option String) (construct : Except String Unit) :
    Except ClientError Unit :=
  match env_key with
  | none => Except.error ClientError.missingCredential
  | some key =>
    if key = "" then Except.error ClientError.missingCredential
    else
      match construct with
      | Except.ok u => Except.ok u
      | Except.error e => Except.error (ClientError.initFailure e)

/-- Outcome of one press of the analyze button (src/app.py lines 236-248):
the guard chain rejects a missing upload, then a failed extraction, then an
empty job description, and otherwise runs the analysis. -/
inductive SubmissionOutcome where
  | missingFile : SubmissionOutcome
  | extractionFailure : SubmissionOutcome
  | missingJobDescription : SubmissionOutcome
  | analyzed (run : List Nat × Nat × Except AnalyzeError ATSResult) : SubmissionOutcome

/-- The submission flow of main_app (src/app.py lines 204-248): extract text
from the uploaded PDF if any, then on the button press walk the guard chain
and run analyze_resume_ats only when a file was uploaded, extraction
succeeded, and the job description is non-empty. -/
def handle_submission (uploaded : Option (List (Option String))) (jd_text : String)
    (api : Nat → ApiOutcome) : SubmissionOutcome :=
  match uploaded with
  | none => SubmissionOutcome.missingFile
  | some pages =>
    match extract_text_from_pdf pages with
    | none => SubmissionOutcome.extractionFailure
    | some resume_text =>
      if jd_text = "" then SubmissionOutcome.missingJobDescription
      else SubmissionOutcome.analyzed (analyze_resume_ats api resume_text jd_text)

/-- Outcome of main_app (src/app.py lines 186-248): if client initialization
fails the function returns before any input handling; otherwise the
submission flow runs. -/
inductive AppOutcome where
  | clientUnavailable (e : ClientError) : AppOutcome
  | ready (outcome : SubmissionOutcome) : AppOutcome

/-- main_app (src/app.py lines 186-248): obtain the client, stop with the
reported client error when that fails (src/app.py lines 196-199), and
otherwise handle the submission. -/
def main_app (env_key : Option String) (construct : Except String Unit)
    (uploaded : Option (List (Option String))) (jd_text : String)
    (api : Nat → ApiOutcome) : AppOutcome :=
  match get_gemini_client env_key construct with
  | Except.error e => AppOutcome.clientUnavailable e
  | Except.ok _ => AppOutcome.ready (handle_submission uploaded jd_text api)

/-- Modelled from the spec (claim C10's description of the extracted text):
the concatenation of exactly the non-empty page texts, in page order, each
followed by a newline, omitting pages that yield no text. -/
def specExtractConcat : List (Option String) → String
  | [] => ""
  | some t :: rest =>
    if t = "" then specExtractConcat rest else t ++ "\n" ++ specExtractConcat rest
  | none :: rest => specExtractConcat rest

/-- Test double: an API that succeeds on every attempt with a conforming
document. -/
def apiC1 : Nat → ApiOutcome := fun _ =>
  ApiOutcome.success (Raw.json (conformingJson 87 "S" "a" "b" "c"))

/-- Test double: an API that fails transiently on attempts 0 and 1 and
succeeds with a conforming document on attempt 2. -/
def apiC2 : Nat → ApiOutcome := fun n =>
  if n < 2 then ApiOutcome.apiError "transient"
  else ApiOutcome.success (Raw.json (conformingJson 87 "S" "a" "b" "c"))

/-- Test double: an API that fails transiently on every attempt. -/
def apiC3 : Nat → ApiOutcome := fun _ => ApiOutcome.apiError "transient"

/-- Test double: an API that returns malformed JSON on every attempt. -/
def apiC4 : Nat → ApiOutcome := fun _ => ApiOutcome.success (Raw.malformed "not json")

/-- Validation accepts a document exactly conforming to the schema and copies
its field values into the report. -/
theorem validate_conformingJson (s : Int) (sm a b c : String) :
    model_validate_json (Raw.json (conformingJson s sm a b c))
      = Except.ok ⟨s, sm, ⟨a, b, c⟩⟩ :=
  rfl

/-- The attempt indices iterated by the retry loop. -/
theorem range_three : List.range 3 = [0, 1, 2] := rfl

/-- Claim C1: if some attempt of the API returns raw text that is JSON exactly
conforming to the schema, analyze returns a report with identical score,
summary and feedback fields, and makes no further API calls after that
attempt. -/
theorem analyze_roundtrip (api : Nat → ApiOutcome) (resume_text jd_text : String)
    (k : Nat) (s : Int) (sm a b c : String) (hk : k < 3)
    (hprev : ∀ i, i < k → ∃ d, api i = ApiOutcome.apiError d)
    (hsucc : api k = ApiOutcome.success (Raw.json (conformingJson s sm a b c))) :
    (analyze_resume_ats api resume_text jd_text).2.2 = Except.ok ⟨s, sm, ⟨a, b, c⟩⟩ ∧
    (analyze_resume_ats api resume_text jd_text).2.1 = k + 1 := by
  interval_cases k
  · simp [analyze_resume_ats, range_three, analyzeLoop, hsucc, validate_conformingJson]
  · obtain ⟨d0, h0⟩ := hprev 0 (by norm_num)
    simp [analyze_resume_ats, range_three, analyzeLoop, h0, hsucc, validate_conformingJson]
  · obtain ⟨d0, h0⟩ := hprev 0 (by norm_num)
    obtain ⟨d1, h1⟩ := hprev 1 (by norm_num)
    simp [analyze_resume_ats, range_three, analyzeLoop, h0, h1, hsucc, validate_conformingJson]

/-- Witness for C1 at a concrete API succeeding on the first attempt. -/
theorem analyze_roundtrip_witness :
    (analyze_resume_ats apiC1 "R" "J").2.2 = Except.ok ⟨87, "S", ⟨"a", "b", "c"⟩⟩ ∧
    (analyze_resume_ats apiC1 "R" "J").2.1 = 0 + 1 :=
  analyze_roundtrip apiC1 "R" "J" 0 87 "S" "a" "b" "c" (by decide)
    (fun i hi => absurd hi (Nat.not_lt_zero i)) rfl

/-- Claim C2: a transient failure on an attempt with attempts remaining is
followed by a sleep of 2 ^ attempt time units (2 ^ (k - 1) for 1-based k)
before the next attempt; in particular, transient failures on the first two
attempts followed by a valid response on the third yield the successful
report after sleeping 1 then 2 time units. -/
theorem analyze_backoff (api : Nat → ApiOutcome) (resume_text jd_text : String)
    (e1 e2 : String) (raw : Raw) (res : ATSResult)
    (h0 : api 0 = ApiOutcome.apiError e1) (h1 : api 1 = ApiOutcome.apiError e2)
    (h2 : api 2 = ApiOutcome.success raw)
    (hv : model_validate_json raw = Except.ok res) :
    analyze_resume_ats api resume_text jd_text = ([1, 2], 3, Except.ok res) ∧
    ∀ (g : Nat → ApiOutcome) (r j : String) (k : Nat), k + 1 < 3 →
      (∀ i, i ≤ k → ∃ d, g i = ApiOutcome.apiError d) →
      (analyze_resume_ats g r j).1.get? k = some (2 ^ k) := by
  constructor
  · simp [analyze_resume_ats, range_three, analyzeLoop, h0, h1, h2, hv]
  · intro g r j k hk hfail
    have hk2 : k < 2 := by omega
    interval_cases k
    · obtain ⟨d, hd⟩ := hfail 0 (Nat.le_refl 0)
      simp [analyze_resume_ats, range_three, analyzeLoop, hd]
    · obtain ⟨d0, hd0⟩ := hfail 0 (by norm_num)
      obtain ⟨d1, hd1⟩ := hfail 1 (by norm_num)
      simp [analyze_resume_ats, range_three, analyzeLoop, hd0, hd1]

/-- Witness for C2 at a concrete API failing twice then succeeding. -/
theorem analyze_backoff_witness :
    analyze_resume_ats apiC2 "R" "J" = ([1, 2], 3, Except.ok ⟨87, "S", ⟨"a", "b", "c"⟩⟩) ∧
    ∀ (g : Nat → ApiOutcome) (r j : String) (k : Nat), k + 1 < 3 →
      (∀ i, i ≤ k → ∃ d, g i = ApiOutcome.apiError d) →
      (analyze_resume_ats g r j).1.get? k = some (2 ^ k) :=
  analyze_backoff apiC2 "R" "J" "transient" "transient"
    (Raw.json (conformingJson 87 "S" "a" "b" "c")) ⟨87, "S", ⟨"a", "b", "c"⟩⟩
    rfl rfl rfl rfl

/-- Claim C3: transient failures on all three attempts yield the exhaustion
error carrying the last error detail, after exactly 3 API calls (no 4th) and
exactly two sleeps (none after the final attempt). -/
theorem analyze_exhaustion (api : Nat → ApiOutcome) (resume_text jd_text : String)
    (e0 e1 e2 : String)
    (h0 : api 0 = ApiOutcome.apiError e0) (h1 : api 1 = ApiOutcome.apiError e1)
    (h2 : api 2 = ApiOutcome.apiError e2) :
    analyze_resume_ats api resume_text jd_text
      = ([1, 2], 3, Except.error (AnalyzeError.apiExhausted e2)) := by
  simp [analyze_resume_ats, range_three, analyzeLoop, h0, h1, h2]

/-- Witness for C3 at a concrete API failing transiently on all attempts. -/
theorem analyze_exhaustion_witness :
    analyze_resume_ats apiC3 "R" "J"
      = ([1, 2], 3, Except.error (AnalyzeError.apiExhausted "transient")) :=
  analyze_exhaustion apiC3 "R" "J" "transient" "transient" "transient" rfl rfl rfl

/-- Claim C4: when an attempt's response fails to parse or validate, analyze
reports a schema violation immediately: no sleep after that attempt, no
further API calls, only the backoff sleeps of the earlier transient
failures. -/
theorem analyze_schema_violation (api : Nat → ApiOutcome) (resume_text jd_text : String)
    (k : Nat) (raw : Raw) (m : String) (hk : k < 3)
    (hprev : ∀ i, i < k → ∃ d, api i = ApiOutcome.apiError d)
    (hs : api k = ApiOutcome.success raw)
    (hv : model_validate_json raw = Except.error m) :
    analyze_resume_ats api resume_text jd_text
      = ((List.range k).map (fun i => 2 ^ i), k + 1,
          Except.error (AnalyzeError.schemaViolation m)) := by
  interval_cases k
  · simp [analyze_resume_ats, range_three, analyzeLoop, hs, hv]
  · obtain ⟨d0, h0⟩ := hprev 0 (by norm_num)
    simp [analyze_resume_ats, range_three, analyzeLoop, h0, hs, hv, List.range_succ]
  · obtain ⟨d0, h0⟩ := hprev 0 (by norm_num)
    obtain ⟨d1, h1⟩ := hprev 1 (by norm_num)
    simp [analyze_resume_ats, range_three, analyzeLoop, h0, h1, hs, hv, List.range_succ]

/-- Witness for C4 at a concrete API returning malformed JSON first. -/
theorem analyze_schema_violation_witness :
    analyze_resume_ats apiC4 "R" "J"
      = ((List.range 0).map (fun i => 2 ^ i), 0 + 1,
          Except.error (AnalyzeError.schemaViolation "invalid JSON")) :=
  analyze_schema_violation apiC4 "R" "J" 0 (Raw.malformed "not json") "invalid JSON"
    (by decide) (fun i hi => absurd hi (Nat.not_lt_zero i)) rfl rfl

/-- The number of API calls made by the retry loop is bounded by the number of
attempt indices it iterates over. -/
theorem analyzeLoop_calls_le (api : Nat → ApiOutcome) (max_retries : Nat) :
    ∀ l : List Nat, (analyzeLoop api max_retries l).2.1 ≤ l.length := by
  intro l
  induction l with
  | nil => simp [analyzeLoop]
  | cons a t ih =>
    cases hA : api a with
    | success raw =>
      cases hv : model_validate_json raw with
      | ok report => simp [analyzeLoop, hA, hv]
      | error e => simp [analyzeLoop, hA, hv]
    | apiError e =>
      by_cases hc : a < max_retries - 1
      · simp only [analyzeLoop, hA, if_pos hc, List.length_cons]
        omega
      · simp only [analyzeLoop, hA, if_neg hc, List.length_cons]
        omega
    | otherError e => simp [analyzeLoop, hA]

/-- Claim C5: every call to analyze terminates with exactly one outcome, a
report or a classified error, with at most 3 API calls; every failure kind is
converted into a returned error value rather than escaping. -/
theorem analyze_total (api : Nat → ApiOutcome) (resume_text jd_text : String) :
    (analyze_resume_ats api resume_text jd_text).2.1 ≤ 3 ∧
    ((∃ r, (analyze_resume_ats api resume_text jd_text).2.2 = Except.ok r) ∨
      (∃ e, (analyze_resume_ats api resume_text jd_text).2.2 = Except.error e)) := by
  constructor
  · have h := analyzeLoop_calls_le api 3 (List.range 3)
    simpa [analyze_resume_ats] using h
  · cases h : (analyze_resume_ats api resume_text jd_text).2.2 with
    | ok r => exact Or.inl ⟨r, rfl⟩
    | error e => exact Or.inr ⟨e, rfl⟩

/-- Claim C6: for non-empty inputs, the user message contains the resume text
verbatim immediately after the delimiter line RESUME TEXT: and the job
description text verbatim immediately after the later delimiter line
JOB DESCRIPTION:, the resume occurring before the job description. -/
theorem prompt_embeds_inputs (resume_text jd_text : String)
    (hr : resume_text ≠ "") (hj : jd_text ≠ "") :
    ∃ a b c : String,
      user_query resume_text jd_text = a ++ (resume_text ++ (b ++ (jd_text ++ c))) ∧
      (∃ a0, a = a0 ++ "RESUME TEXT:\n    ") ∧
      (∃ b0, b = b0 ++ "JOB DESCRIPTION:\n    ") := by
  refine ⟨"\n    Analyze the following RESUME against the JOB DESCRIPTION.\n\n    ---\n    RESUME TEXT:\n    ",
    "\n    ---\n    JOB DESCRIPTION:\n    ", "\n    ", ?_, ?_, ?_⟩
  · simp [user_query, String.append_assoc]
  · exact ⟨"\n    Analyze the following RESUME against the JOB DESCRIPTION.\n\n    ---\n    ", rfl⟩
  · exact ⟨"\n    ---\n    ", rfl⟩

/-- Witness for C6 at concrete non-empty inputs. -/
theorem prompt_embeds_inputs_witness :
    ∃ a b c : String,
      user_query "R" "J" = a ++ ("R" ++ (b ++ ("J" ++ c))) ∧
      (∃ a0, a = a0 ++ "RESUME TEXT:\n    ") ∧
      (∃ b0, b = b0 ++ "JOB DESCRIPTION:\n    ") :=
  prompt_embeds_inputs "R" "J" (by decide) (by decide)

/-- Counterexample to claim C7 as stated: a document conforming to the
declared schema with score 150 passes validation and yields a report whose
score lies outside the 0 to 100 range. -/
theorem validate_score_out_of_range :
    model_validate_json (Raw.json (conformingJson 150 "S" "a" "b" "c"))
      = Except.ok ⟨150, "S", ⟨"a", "b", "c"⟩⟩ ∧
    ¬ ((150 : Int) ≤ 100) :=
  ⟨rfl, by decide⟩

/-- Claim C7 as amended: every report produced by successful validation has an
integer score copied verbatim from the document; validation enforces no range
constraint, so any integer score, in or out of the 0 to 100 range, is
accepted. -/
theorem validate_score_unconstrained (s : Int) (sm a b c : String) :
    model_validate_json (Raw.json (conformingJson s sm a b c))
      = Except.ok ⟨s, sm, ⟨a, b, c⟩⟩ :=
  rfl

/-- Blankness distributes over string concatenation. -/
theorem isBlank_append (s t : String) : isBlank (s ++ t) = (isBlank s && isBlank t) := by
  simp [isBlank, String.data_append, List.all_append]

/-- Accumulating a page that yields no text or only whitespace keeps a blank
accumulator blank. -/
theorem isBlank_accumulatePage (acc : String) (p : Option String)
    (hp : ∀ s, p = some s → isBlank s = true) (hacc : isBlank acc = true) :
    isBlank (accumulatePage acc p) = true := by
  cases p with
  | none => simpa [accumulatePage] using hacc
  | some t =>
    have ht := hp t rfl
    by_cases h : t = ""
    · simpa [accumulatePage, h] using hacc
    · have hn : isBlank "\n" = true := by decide
      simp [accumulatePage, h, isBlank_append, hacc, ht, hn]

/-- Folding the page loop over pages that yield no text or only whitespace
keeps a blank accumulator blank. -/
theorem foldl_blank (pages : List (Option String))
    (h : ∀ p ∈ pages, ∀ s, p = some s → isBlank s = true) :
    ∀ acc, isBlank acc = true → isBlank (pages.foldl accumulatePage acc) = true := by
  induction pages with
  | nil => intro acc hacc; simpa using hacc
  | cons p t ih =>
    intro acc hacc
    simp only [List.foldl_cons]
    exact ih (fun q hq => h q (List.mem_cons_of_mem p hq)) _
      (isBlank_accumulatePage acc p (h p (List.mem_cons_self p t)) hacc)

/-- Claim C8: when every page yields no text or only whitespace, extraction
fails, and the submission stops with an extraction failure before any prompt
is built or any API call is made, whatever the API would have answered. -/
theorem empty_extraction_fails (pages : List (Option String)) (jd_text : String)
    (api : Nat → ApiOutcome)
    (h : ∀ p ∈ pages, ∀ s, p = some s → isBlank s = true) :
    extract_text_from_pdf pages = none ∧
    handle_submission (some pages) jd_text api = SubmissionOutcome.extractionFailure := by
  have hb : isBlank (pages.foldl accumulatePage "") = true :=
    foldl_blank pages h "" (by decide)
  have he : extract_text_from_pdf pages = none := by
    simp [extract_text_from_pdf, hb]
  exact ⟨he, by simp [handle_submission, he]⟩

/-- Witness for C8 at a concrete PDF with one textless page and one
whitespace-only page. -/
theorem empty_extraction_fails_witness :
    extract_text_from_pdf [none, some " "] = none ∧
    handle_submission (some [none, some " "]) "JD" (fun _ => ApiOutcome.apiError "x")
      = SubmissionOutcome.extractionFailure :=
  empty_extraction_fails [none, some " "] "JD" (fun _ => ApiOutcome.apiError "x")
    (by
      intro p hp s hs
      subst hs
      simp only [List.mem_cons, List.not_mem_nil, or_false] at hp
      rcases hp with h1 | h1
      · exact Option.noConfusion h1
      · cases Option.some.inj h1; decide)

/-- Claim C9: with no API key configured (unset or empty), client construction
fails with the missing-credential error, the app stops before any input
handling, and analyze is never invoked; the reported error is the credential
one, not a network fault. -/
theorem missing_credential_blocks (env_key : Option String)
    (construct : Except String Unit) (uploaded : Option (List (Option String)))
    (jd_text : String) (api : Nat → ApiOutcome)
    (h : env_key = none ∨ env_key = some "") :
    get_gemini_client env_key construct = Except.error ClientError.missingCredential ∧
    main_app env_key construct uploaded jd_text api
      = AppOutcome.clientUnavailable ClientError.missingCredential := by
  have hg : get_gemini_client env_key construct
      = Except.error ClientError.missingCredential := by
    rcases h with h | h <;> subst h <;> simp [get_gemini_client]
  exact ⟨hg, by simp [main_app, hg]⟩

/-- Witness for C9 with the key unset and a submission ready to go. -/
theorem missing_credential_blocks_witness :
    get_gemini_client none (Except.ok ()) = Except.error ClientError.missingCredential ∧
    main_app none (Except.ok ()) (some [some "A"]) "JD" apiC1
      = AppOutcome.clientUnavailable ClientError.missingCredential :=
  missing_credential_blocks none (Except.ok ()) (some [some "A"]) "JD" apiC1 (Or.inl rfl)

/-- Folding the page loop from any accumulator only appends to it. -/
theorem foldl_accumulatePage_shift (pages : List (Option String)) :
    ∀ acc : String, pages.foldl accumulatePage acc
      = acc ++ pages.foldl accumulatePage "" := by
  induction pages with
  | nil => intro acc; simp [String.append_empty]
  | cons p t ih =>
    intro acc
    simp only [List.foldl_cons]
    rw [ih (accumulatePage acc p), ih (accumulatePage "" p), ← String.append_assoc]
    congr 1
    cases p with
    | none => simp [accumulatePage, String.append_empty]
    | some s =>
      by_cases h : s = ""
      · simp [accumulatePage, h, String.append_empty]
      · simp [accumulatePage, h, String.empty_append]

/-- The accumulated text of the page loop is the concatenation of exactly the
non-empty page texts in page order, each followed by a newline. -/
theorem foldl_accumulatePage_eq_spec (pages : List (Option String)) :
    pages.foldl accumulatePage "" = specExtractConcat pages := by
  induction pages with
  | nil => rfl
  | cons p t ih =>
    cases p with
    | none => simpa [specExtractConcat, accumulatePage] using ih
    | some s =>
      by_cases h : s = ""
      · simp only [List.foldl_cons]
        simpa [specExtractConcat, accumulatePage, h] using ih
      · simp only [List.foldl_cons]
        rw [foldl_accumulatePage_shift t (accumulatePage "" (some s))]
        simp [specExtractConcat, accumulatePage, h, ih, String.empty_append,
          String.append_assoc]

/-- A page with non-whitespace text makes the accumulated text
non-whitespace. -/
theorem foldl_nonblank (pages : List (Option String))
    (h : ∃ p ∈ pages, ∃ s, p = some s ∧ isBlank s = false) :
    isBlank (pages.foldl accumulatePage "") = false := by
  induction pages with
  | nil =>
    rcases h with ⟨p, hp, _⟩
    exact absurd hp (List.not_mem_nil p)
  | cons p t ih =>
    rcases h with ⟨q, hq, s, hqs, hs⟩
    rcases List.mem_cons.mp hq with h1 | h2
    · subst h1
      subst hqs
      have hne : s ≠ "" := by
        intro h0
        subst h0
        simp [isBlank] at hs
      simp only [List.foldl_cons]
      rw [foldl_accumulatePage_shift t (accumulatePage "" (some s))]
      have ha : accumulatePage "" (some s) = "" ++ (s ++ "\n") := by
        simp [accumulatePage, hne]
      rw [ha]
      simp [isBlank_append, hs, String.empty_append]
    · simp only [List.foldl_cons]
      rw [foldl_accumulatePage_shift t (accumulatePage "" p)]
      have hb : isBlank (t.foldl accumulatePage "") = false := ih ⟨q, h2, s, hqs, hs⟩
      simp [isBlank_append, hb]

/-- Claim C10: when at least one page yields non-whitespace text, extraction
succeeds and returns the concatenation of exactly the non-empty page texts in
page order, each followed by a newline, silently omitting pages that yield no
text. -/
theorem partial_extraction (pages : List (Option String))
    (h : ∃ p ∈ pages, ∃ s, p = some s ∧ isBlank s = false) :
    extract_text_from_pdf pages = some (specExtractConcat pages) := by
  have hnb := foldl_nonblank pages h
  have he : extract_text_from_pdf pages = some (pages.foldl accumulatePage "") := by
    simp [extract_text_from_pdf, hnb]
  rw [he, foldl_accumulatePage_eq_spec]

/-- Witness for C10 at a concrete PDF with one text page, one textless page
and one empty-text page. -/
theorem partial_extraction_witness :
    extract_text_from_pdf [some "A", none, some ""]
      = some (specExtractConcat [some "A", none, some ""]) :=
  partial_extraction [some "A", none, some ""]
    ⟨some "A", List.mem_cons_self _ _, "A", rfl, by decide⟩
